import Mathlib

/-!
Verification of the saliva-pH monitor (src/childhealth.py).

Shallow embedding notes:
* pH values and timestamps are rationals (the Python floats).
* Wall-clock time is explicit: each call that reads the clock takes the
  current absolute time `now : Rat` as an argument.  The monitor records
  `start_time` and `last_reading_time` as absolute timestamps, exactly as
  the source stores `time.time()` values.
* Randomness (the gauss draw, the two `random.random()` coins, the two
  `random.uniform` draws, the value of `np.sin(now/30)`, and the
  `random.choice` advice index) is passed in as an oracle record per call.
* Exceptions: `classify_ph` returning "Unknown" hands `data = None` to the
  tick handler, whose status-line format then raises `TypeError`; the
  handler's `except` catches it.  The tick function below models this by
  stopping the `none` branch at the raise point, keeping exactly the
  mutations the source performed before line 269.
-/

namespace ChildHealth

/-- The five named pH bands of the `PH_LEVELS` table, in declared order. -/
inductive Category where
  | DragonFire
  | SourLemon
  | TangyOrange
  | PerfectRainbow
  | BubbleTrouble
deriving DecidableEq, Repr

/-- The `PH_LEVELS` band table: each band with its half-open range
`(lo, hi)`, in the order the Python dict declares them. -/
def PH_LEVELS : List (Category × ℚ × ℚ) :=
  [ (Category.DragonFire,     0,       5),
    (Category.SourLemon,      5,       6),
    (Category.TangyOrange,    6,       68/10),
    (Category.PerfectRainbow, 68/10,   75/10),
    (Category.BubbleTrouble,  75/10,   14) ]

/-- `classify_ph`: scan the band table in declared order and return the
first band with `lo <= ph < hi`; `none` models the `("Unknown", None)`
fallthrough. -/
def classify_ph (ph : ℚ) : Option Category :=
  (PH_LEVELS.find? (fun b => decide (b.2.1 ≤ ph ∧ ph < b.2.2))).map Prod.fst

/-- The source tests `"Rainbow" in category` on the band-name string;
among the names `"Dragon Fire! 🔥"`, `"Sour Lemon! 🍋"`, `"Tangy Orange! 🍊"`,
`"Perfect Rainbow! 🌈"`, `"Bubble Trouble! 🫧"` and `"Unknown"` the substring
`"Rainbow"` occurs exactly in `"Perfect Rainbow! 🌈"`. -/
def containsRainbow : Option Category → Bool
  | some Category.PerfectRainbow => true
  | _ => false

/-- Python `round` ties-to-even on an exact rational. -/
def rndHalfEven (q : ℚ) : ℤ :=
  if q - ⌊q⌋ < 1/2 then ⌊q⌋
  else if q - ⌊q⌋ > 1/2 then ⌊q⌋ + 1
  else if Even ⌊q⌋ then ⌊q⌋ else ⌊q⌋ + 1

/-- The source's `round(ph, 2)`. -/
def round2 (q : ℚ) : ℚ := (rndHalfEven (q * 100) : ℚ) / 100

/-- What the advice panel currently shows: the startup placeholder, the
neutral "Monitoring saliva health..." line, or an advice string of a band
(identified by band and `random.choice` index into its 3-entry list). -/
inductive AdviceDisp where
  | initializing
  | monitoring
  | advice (c : Category) (idx : ℕ)
deriving DecidableEq, Repr

/-- Random oracle for one `simulate_sensor_data` call: the value of
`np.sin(current_time / 30)`, the `random.gauss(0, 0.2)` draw, the two
`random.random()` coins and the two `random.uniform` draws. -/
structure SimRand where
  sinVal : ℚ
  gauss : ℚ
  coin1 : ℚ
  u1 : ℚ
  coin2 : ℚ
  u2 : ℚ
deriving DecidableEq, Repr

/-- Outcome of one hardware transaction (`write(b'R')` then `readline`):
either a successfully parsed float, or any of the failures the source
catches (empty response, malformed float, serial exception, decode
error). -/
inductive HwResult where
  | success (v : ℚ)
  | failure
deriving DecidableEq, Repr

/-- Random oracle for one tick of `update_display`. -/
structure TickRand where
  hw : HwResult
  sim : SimRand
  adviceIdx : ℕ
deriving DecidableEq, Repr

/-- The monitor's mutable state (`RealSalivaMonitor` fields used by the
loop).  `ser_open` models `self.ser is not None and self.ser.is_open`;
`annotations` collects the `ax1.text` change annotations added so far as
(current_time, ph, is_up, magnitude); `status_disp` holds the data shown
in the status line. -/
structure MonitorState where
  time_data : List ℚ
  ph_data : List ℚ
  start_time : ℚ
  last_reading_time : ℚ
  last_reading : Option ℚ
  last_category : Option (Option Category)
  consecutive_count : ℕ
  health_score : ℤ
  stars : ℕ
  sensor_errors : ℕ
  ser_open : Bool
  status_disp : Option (ℚ × Category × ℤ × ℕ)
  advice_disp : AdviceDisp
  annotations : List (ℚ × ℚ × Bool × ℚ)
deriving DecidableEq, Repr

/-- State right after `__init__` at absolute time `t0`:
`start_time` and `last_reading_time` are both stamped `time.time()`,
score 100, no stars, no errors; `serOpen` records whether
`connect_to_sensor` succeeded. -/
def initState (t0 : ℚ) (serOpen : Bool) : MonitorState :=
  { time_data := []
    ph_data := []
    start_time := t0
    last_reading_time := t0
    last_reading := none
    last_category := none
    consecutive_count := 0
    health_score := 100
    stars := 0
    sensor_errors := 0
    ser_open := serOpen
    status_disp := none
    advice_disp := AdviceDisp.initializing
    annotations := [] }

/-- Appending to a `deque(maxlen := cap)`: push right, evict oldest. -/
def pushCap (cap : ℕ) (xs : List ℚ) (x : ℚ) : List ℚ :=
  let ys := xs ++ [x]
  if cap < ys.length then ys.drop (ys.length - cap) else ys

/-- Condition of the sugary-drink branch of `simulate_sensor_data`:
`time_since_last > 20 and random.random() < 0.1` where
`time_since_last = time.time() - self.last_reading_time`. -/
def sugarEvent (s : MonitorState) (now : ℚ) (r : SimRand) : Bool :=
  decide (now - s.last_reading_time > 20) && decide (r.coin1 < 1/10)

/-- Condition of the healthy-snack `elif` branch: reached only when the
sugary branch was not taken, then `time_since_last > 40 and
random.random() < 0.1`. -/
def healthyEvent (s : MonitorState) (now : ℚ) (r : SimRand) : Bool :=
  !sugarEvent s now r &&
    (decide (now - s.last_reading_time > 40) && decide (r.coin2 < 1/10))

/-- `simulate_sensor_data`: base drift plus gaussian fluctuation, an
optional event excursion, clamped to [4, 9] and rounded to 2 decimals.
Pure: reads `last_reading_time` but writes nothing. -/
def simulate_sensor_data (s : MonitorState) (now : ℚ) (r : SimRand) : ℚ :=
  round2 (max 4 (min 9
    (65/10 + (1/2) * r.sinVal +
      (if sugarEvent s now r then r.gauss - r.u1
       else if healthyEvent s now r then r.gauss + r.u2
       else r.gauss))))

/-- `read_sensor`: value returned together with the successor state.  With
no open port it returns simulated data and touches nothing.  A hardware
success returns the parsed float.  Any caught failure increments
`sensor_errors`, drops the port once the count reaches 3 (`self.ser =
None`), and returns simulated data on that same call. -/
def read_sensor (s : MonitorState) (now : ℚ) (hw : HwResult) (r : SimRand) :
    ℚ × MonitorState :=
  if s.ser_open = false then (simulate_sensor_data s now r, s)
  else
    match hw with
    | HwResult.success v => (v, s)
    | HwResult.failure =>
        let errs := s.sensor_errors + 1
        let s1 := { s with
          sensor_errors := errs,
          ser_open := if 3 ≤ errs then false else s.ser_open }
        (simulate_sensor_data s1 now r, s1)

/-- Lines 261–266: consecutive-category bookkeeping.  `c` is the category
name just computed (`none` rendering the string `"Unknown"`). -/
def consecUpdate (s : MonitorState) (c : Option Category) : MonitorState :=
  if s.last_category = some c then
    { s with consecutive_count := s.consecutive_count + 1 }
  else
    { s with consecutive_count := 1, last_category := some c }

/-- One tick of `update_display` at absolute time `now`.  Follows the
source line by line; in the `Unknown` branch `data` is `None`, so building
the status string raises and the surrounding `except` keeps whatever was
already mutated (history, score, consecutive counter) while the display
payload, marker and annotation code never run. -/
def update_display (s : MonitorState) (now : ℚ) (r : TickRand) : MonitorState :=
  let pr := read_sensor s now r.hw r.sim
  let ph := pr.1
  let s1 := pr.2
  let current_time := now - s1.start_time
  let s2 := { s1 with
    time_data := pushCap 50 s1.time_data current_time,
    ph_data := pushCap 50 s1.ph_data ph }
  match classify_ph ph with
  | none =>
      let s3 := { s2 with health_score := max 0 (s2.health_score - 1) }
      consecUpdate s3 none
  | some cat =>
      let s3 :=
        if containsRainbow (some cat) then
          { s2 with health_score := min 100 (s2.health_score + 1) }
        else
          { s2 with health_score := max 0 (s2.health_score - 1) }
      let s4 :=
        if containsRainbow (some cat) && decide (now - s3.last_reading_time > 5) then
          { s3 with stars := s3.stars + 1, last_reading_time := now }
        else s3
      let s5 := consecUpdate s4 (some cat)
      let s6 := { s5 with
        status_disp := some (ph, cat, s5.health_score, min 5 s5.stars) }
      let s7 :=
        if 3 ≤ s6.consecutive_count then
          { s6 with advice_disp := AdviceDisp.advice cat (r.adviceIdx % 3) }
        else
          { s6 with advice_disp := AdviceDisp.monitoring }
      match s7.last_reading with
      | some lr =>
          if decide (|ph - lr| > 1/2) &&
              decide (current_time - s7.last_reading_time > 5) then
            { s7 with
              annotations :=
                s7.annotations ++ [(current_time, ph, decide (lr < ph), |ph - lr|)],
              last_reading := some ph }
          else s7
      | none => { s7 with last_reading := some ph }

/-- Fold `read_sensor` over a list of (time, hardware outcome, sim oracle)
triples, keeping only the state. -/
def runReads (s : MonitorState) : List (ℚ × HwResult × SimRand) → MonitorState
  | [] => s
  | t :: ts => runReads (read_sensor s t.1 t.2.1 t.2.2).2 ts

/-- Fold `update_display` over a list of (time, oracle) ticks. -/
def runTicks (s : MonitorState) : List (ℚ × TickRand) → MonitorState
  | [] => s
  | t :: ts => runTicks (update_display s t.1 t.2) ts

/-- The states of an infinite run: `runFrom s0 f n` is the state after the
first `n` ticks, tick `n` firing at time `(f n).1` with oracle `(f n).2`. -/
def runFrom (s0 : MonitorState) (f : ℕ → ℚ × TickRand) : ℕ → MonitorState
  | 0 => s0
  | n + 1 => update_display (runFrom s0 f n) (f n).1 (f n).2

/-- Category of the reading acquired on a tick (what `classify_ph`
returns inside `update_display`). -/
def tickCategory (s : MonitorState) (now : ℚ) (r : TickRand) : Option Category :=
  classify_ph (read_sensor s now r.hw r.sim).1

/-- The pH value acquired on a tick. -/
def tickPh (s : MonitorState) (now : ℚ) (r : TickRand) : ℚ :=
  (read_sensor s now r.hw r.sim).1

/-- Condition of the star award (lines 256–259): category name contains
"Rainbow" and strictly more than 5 seconds since `last_reading_time`. -/
def starCond (s : MonitorState) (now : ℚ) (r : TickRand) : Bool :=
  containsRainbow (tickCategory s now r) && decide (now - s.last_reading_time > 5)

/-- Condition under which the tick adds a change annotation (lines
291–294): the tick reached the annotation code (classification not
Unknown), a prior reading exists, the delta exceeds 0.5, and
`current_time - last_reading_time > 5` evaluated on the
`last_reading_time` as possibly rewritten by this tick's star award. -/
def annotCond (s : MonitorState) (now : ℚ) (r : TickRand) : Bool :=
  (tickCategory s now r).isSome &&
    match s.last_reading with
    | none => false
    | some lr =>
        decide (|tickPh s now r - lr| > 1/2) &&
          decide ((now - s.start_time) -
            (if starCond s now r then now else s.last_reading_time) > 5)

/-- Whether a hardware-outcome sequence contains 3 consecutive failures. -/
def hasThreeConsecFails : List HwResult → Bool
  | HwResult.failure :: HwResult.failure :: HwResult.failure :: _ => true
  | _ :: rest => hasThreeConsecFails rest
  | [] => false

/-- A sim oracle whose coins never fire an event. -/
def rNoEvent : SimRand := ⟨0, 0, 1, 0, 1, 0⟩

/-- Alternating hardware outcomes: fail, ok, fail, ok, fail. -/
def altFailSeq : List (ℚ × HwResult × SimRand) :=
  [ (2, HwResult.failure, rNoEvent),
    (4, HwResult.success 7, rNoEvent),
    (6, HwResult.failure, rNoEvent),
    (8, HwResult.success 7, rNoEvent),
    (10, HwResult.failure, rNoEvent) ]

/-- Three hardware readings: 4.9 at t=5, 5.5 at t=10 (5 s later, delta
0.6) and 6.1 at t=12 (2 s later, delta 0.6 again). -/
def annotSeq : List (ℚ × TickRand) :=
  [ (5, ⟨HwResult.success (49/10), rNoEvent, 0⟩),
    (10, ⟨HwResult.success (55/10), rNoEvent, 0⟩),
    (12, ⟨HwResult.success (61/10), rNoEvent, 0⟩) ]

/-- The monitor state after the first tick of `annotSeq`. -/
def annotS1 : MonitorState :=
  update_display (initState 0 true) 5 ⟨HwResult.success (49/10), rNoEvent, 0⟩

/-- The monitor state after the second tick of `annotSeq`. -/
def annotS2 : MonitorState :=
  update_display annotS1 10 ⟨HwResult.success (55/10), rNoEvent, 0⟩

/-- A sim oracle whose first coin always fires the sugary-event branch
with a draw of 1.5. -/
def rSugar : SimRand := ⟨0, 0, 0, 3/2, 1, 1/2⟩

/-- A tick oracle producing a simulated 7.0 reading (no events, gauss
draw 0.5), classified PerfectRainbow. -/
def rRainbow : TickRand := ⟨HwResult.failure, ⟨0, 1/2, 1, 0, 1, 0⟩, 0⟩

end ChildHealth

namespace ChildHealth

/-- A value at or above a band's upper bound is not in the band. -/
theorem notBandAbove (lo hi v : ℚ) (h : hi ≤ v) : ¬(lo ≤ v ∧ v < hi) :=
  fun hc => absurd hc.2 (not_lt.mpr h)

/-- A value below a band's lower bound is not in the band. -/
theorem notBandBelow (lo hi v : ℚ) (h : v < lo) : ¬(lo ≤ v ∧ v < hi) :=
  fun hc => absurd hc.1 (not_le.mpr h)

/-- Band-by-band characterization of the classifier scan. -/
theorem classify_bands_cases (v : ℚ) :
    (0 ≤ v ∧ v < 5 → classify_ph v = some Category.DragonFire) ∧
    (5 ≤ v ∧ v < 6 → classify_ph v = some Category.SourLemon) ∧
    (6 ≤ v ∧ v < 68/10 → classify_ph v = some Category.TangyOrange) ∧
    (68/10 ≤ v ∧ v < 75/10 → classify_ph v = some Category.PerfectRainbow) ∧
    (75/10 ≤ v ∧ v < 14 → classify_ph v = some Category.BubbleTrouble) ∧
    (v < 0 ∨ 14 ≤ v → classify_ph v = none) := by
  unfold classify_ph PH_LEVELS
  simp only [List.find?]
  refine ⟨?_, ?_, ?_, ?_, ?_, ?_⟩ <;> intro h
  · rw [decide_eq_true h]; rfl
  · rw [decide_eq_false (notBandAbove 0 5 v (by linarith [h.1])),
      decide_eq_true h]; rfl
  · rw [decide_eq_false (notBandAbove 0 5 v (by linarith [h.1])),
      decide_eq_false (notBandAbove 5 6 v (by linarith [h.1])),
      decide_eq_true h]; rfl
  · rw [decide_eq_false (notBandAbove 0 5 v (by linarith [h.1])),
      decide_eq_false (notBandAbove 5 6 v (by linarith [h.1])),
      decide_eq_false (notBandAbove 6 (68/10) v (by linarith [h.1])),
      decide_eq_true h]; rfl
  · rw [decide_eq_false (notBandAbove 0 5 v (by linarith [h.1])),
      decide_eq_false (notBandAbove 5 6 v (by linarith [h.1])),
      decide_eq_false (notBandAbove 6 (68/10) v (by linarith [h.1])),
      decide_eq_false (notBandAbove (68/10) (75/10) v (by linarith [h.1])),
      decide_eq_true h]; rfl
  · rcases h with h | h
    · rw [decide_eq_false (notBandBelow 0 5 v (by linarith)),
        decide_eq_false (notBandBelow 5 6 v (by linarith)),
        decide_eq_false (notBandBelow 6 (68/10) v (by linarith)),
        decide_eq_false (notBandBelow (68/10) (75/10) v (by linarith)),
        decide_eq_false (notBandBelow (75/10) 14 v (by linarith))]; rfl
    · rw [decide_eq_false (notBandAbove 0 5 v (by linarith)),
        decide_eq_false (notBandAbove 5 6 v (by linarith)),
        decide_eq_false (notBandAbove 6 (68/10) v (by linarith)),
        decide_eq_false (notBandAbove (68/10) (75/10) v (by linarith)),
        decide_eq_false (notBandAbove (75/10) 14 v (by linarith))]; rfl

/-- C1: `classify_ph` maps [0,5) to DragonFire, [5,6) to SourLemon,
[6,6.8) to TangyOrange, [6.8,7.5) to PerfectRainbow, [7.5,14) to
BubbleTrouble, and anything outside [0,14) to Unknown (no advice data);
each boundary value belongs to the higher band. -/
theorem classify_ph_bands (v : ℚ) :
    (0 ≤ v ∧ v < 5 → classify_ph v = some Category.DragonFire) ∧
    (5 ≤ v ∧ v < 6 → classify_ph v = some Category.SourLemon) ∧
    (6 ≤ v ∧ v < 68/10 → classify_ph v = some Category.TangyOrange) ∧
    (68/10 ≤ v ∧ v < 75/10 → classify_ph v = some Category.PerfectRainbow) ∧
    (75/10 ≤ v ∧ v < 14 → classify_ph v = some Category.BubbleTrouble) ∧
    (v < 0 ∨ 14 ≤ v → classify_ph v = none) :=
  classify_bands_cases v

/-- C1 witness: concrete evaluations through the theorem, including a
boundary value going to the higher band and an out-of-range value. -/
theorem classify_ph_bands_witness :
    classify_ph (49/10) = some Category.DragonFire ∧
    classify_ph 5 = some Category.SourLemon ∧
    classify_ph (68/10) = some Category.PerfectRainbow ∧
    classify_ph 14 = none :=
  ⟨(classify_ph_bands (49/10)).1 (by norm_num),
   (classify_ph_bands 5).2.1 (by norm_num),
   (classify_ph_bands (68/10)).2.2.2.1 (by norm_num),
   (classify_ph_bands 14).2.2.2.2.2 (Or.inr (by norm_num))⟩

/-- Rounding half-to-even never goes below an integer lower bound. -/
theorem le_rndHalfEven (q : ℚ) (A : ℤ) (h : (A : ℚ) ≤ q) : A ≤ rndHalfEven q := by
  have hA : A ≤ ⌊q⌋ := Int.le_floor.mpr h
  unfold rndHalfEven
  split
  · exact hA
  split
  · omega
  split <;> omega

/-- Rounding half-to-even never exceeds an integer upper bound. -/
theorem rndHalfEven_le (q : ℚ) (B : ℤ) (h : q ≤ (B : ℚ)) : rndHalfEven q ≤ B := by
  have hfl : (⌊q⌋ : ℚ) ≤ q := Int.floor_le q
  have hB : ⌊q⌋ ≤ B := by
    have := Int.floor_le_floor h
    simpa using this
  unfold rndHalfEven
  split
  · exact hB
  rename_i h1
  push_neg at h1
  have hlt : (⌊q⌋ : ℚ) < (B : ℚ) := by linarith
  have : ⌊q⌋ < B := by exact_mod_cast hlt
  split
  · omega
  split <;> omega

/-- C7: every simulated reading, for any elapsed time, base signal value,
gaussian draw and excursion draws, lies in [4, 9] and is an exact multiple
of 1/100 (rounded to 2 decimals). -/
theorem simulate_sensor_data_bounds (s : MonitorState) (now : ℚ) (r : SimRand) :
    4 ≤ simulate_sensor_data s now r ∧ simulate_sensor_data s now r ≤ 9 ∧
    ∃ k : ℤ, simulate_sensor_data s now r = (k : ℚ) / 100 := by
  unfold simulate_sensor_data round2
  set ph := 65/10 + (1/2) * r.sinVal +
    (if sugarEvent s now r then r.gauss - r.u1
     else if healthyEvent s now r then r.gauss + r.u2 else r.gauss) with hph
  have h4 : (4 : ℚ) ≤ max 4 (min 9 ph) := le_max_left 4 (min 9 ph)
  have h9 : max 4 (min 9 ph) ≤ 9 := by
    apply max_le (by norm_num)
    exact min_le_left 9 ph
  refine ⟨?_, ?_, ⟨rndHalfEven (max 4 (min 9 ph) * 100), ?_⟩⟩
  · have hlo : ((400 : ℤ) : ℚ) ≤ max 4 (min 9 ph) * 100 := by push_cast; linarith
    have := le_rndHalfEven (max 4 (min 9 ph) * 100) 400 hlo
    have hq : ((400 : ℤ) : ℚ) ≤ (rndHalfEven (max 4 (min 9 ph) * 100) : ℚ) := by
      exact_mod_cast this
    push_cast at hq
    linarith
  · have hhi : max 4 (min 9 ph) * 100 ≤ ((900 : ℤ) : ℚ) := by push_cast; linarith
    have := rndHalfEven_le (max 4 (min 9 ph) * 100) 900 hhi
    have hq : (rndHalfEven (max 4 (min 9 ph) * 100) : ℚ) ≤ ((900 : ℤ) : ℚ) := by
      exact_mod_cast this
    push_cast at hq
    linarith
  · rfl

/-- The successor state of `read_sensor`: unchanged except on a caught
hardware failure, where the error counter steps and the port is dropped
once the count reaches 3. -/
theorem read_sensor_state (s : MonitorState) (now : ℚ) (hw : HwResult) (r : SimRand) :
    (read_sensor s now hw r).2 =
      if s.ser_open = true ∧ hw = HwResult.failure then
        { s with sensor_errors := s.sensor_errors + 1,
                 ser_open := if 3 ≤ s.sensor_errors + 1 then false else s.ser_open }
      else s := by
  unfold read_sensor
  cases hw <;> rcases hb : s.ser_open <;> simp [hb]

/-- The value returned by `read_sensor`: the parsed float on a hardware
success with the port open, otherwise the simulated value computed from
the (possibly error-stepped) state. -/
theorem read_sensor_value (s : MonitorState) (now : ℚ) (hw : HwResult) (r : SimRand) :
    (read_sensor s now hw r).1 =
      match hw with
      | HwResult.success v =>
          if s.ser_open = true then v else simulate_sensor_data s now r
      | HwResult.failure =>
          simulate_sensor_data (read_sensor s now hw r).2 now r := by
  unfold read_sensor
  cases hw <;> rcases hb : s.ser_open <;> simp [hb]

/-- Case analysis of `read_sensor` over port state and outcome. -/
theorem read_sensor_cases (s : MonitorState) (now : ℚ) (hw : HwResult) (r : SimRand) :
    (s.ser_open = false → read_sensor s now hw r = (simulate_sensor_data s now r, s)) ∧
    (∀ v, s.ser_open = true → hw = HwResult.success v →
      read_sensor s now hw r = (v, s)) ∧
    (s.ser_open = true → hw = HwResult.failure →
      (read_sensor s now hw r).2.sensor_errors = s.sensor_errors + 1 ∧
      (read_sensor s now hw r).1 =
        simulate_sensor_data (read_sensor s now hw r).2 now r) := by
  refine ⟨?_, ?_, ?_⟩
  · intro h
    unfold read_sensor
    rw [if_pos h]
  · intro v h hv
    subst hv
    unfold read_sensor
    simp [h]
  · intro h hv
    subst hv
    constructor
    · rw [read_sensor_state]
      simp [h]
    · rw [read_sensor_value]

/-- C9: `read_sensor` is a total function into pH values: with the port
closed it returns simulated data and leaves the state untouched, a
hardware success returns the parsed value unchanged in state, and every
caught failure (empty, malformed, decode or serial error) is counted and
converted into a simulated reading returned on that same call. -/
theorem read_sensor_never_fails (s : MonitorState) (now : ℚ) (hw : HwResult) (r : SimRand) :
    (s.ser_open = false → read_sensor s now hw r = (simulate_sensor_data s now r, s)) ∧
    (∀ v, s.ser_open = true → hw = HwResult.success v →
      read_sensor s now hw r = (v, s)) ∧
    (s.ser_open = true → hw = HwResult.failure →
      (read_sensor s now hw r).2.sensor_errors = s.sensor_errors + 1 ∧
      (read_sensor s now hw r).1 =
        simulate_sensor_data (read_sensor s now hw r).2 now r) :=
  read_sensor_cases s now hw r

/-- C9 witness: the three conjuncts exercised at concrete inputs. -/
theorem read_sensor_never_fails_witness :
    read_sensor (initState 0 false) 1 HwResult.failure ⟨0, 0, 1, 0, 1, 0⟩ =
      (simulate_sensor_data (initState 0 false) 1 ⟨0, 0, 1, 0, 1, 0⟩, initState 0 false) ∧
    read_sensor (initState 0 true) 1 (HwResult.success 7) ⟨0, 0, 1, 0, 1, 0⟩ =
      ((7 : ℚ), initState 0 true) ∧
    (read_sensor (initState 0 true) 1 HwResult.failure ⟨0, 0, 1, 0, 1, 0⟩).2.sensor_errors =
      (initState 0 true).sensor_errors + 1 :=
  ⟨(read_sensor_never_fails (initState 0 false) 1 HwResult.failure ⟨0, 0, 1, 0, 1, 0⟩).1 rfl,
   (read_sensor_never_fails (initState 0 true) 1 (HwResult.success 7) ⟨0, 0, 1, 0, 1, 0⟩).2.1
      7 rfl rfl,
   ((read_sensor_never_fails (initState 0 true) 1 HwResult.failure ⟨0, 0, 1, 0, 1, 0⟩).2.2
      rfl rfl).1⟩

/-- C3 counterexample: an alternating failure/success run that never has
3 consecutive failures nevertheless ends with the port dropped, so the
switch is triggered by cumulative failures, not consecutive ones. -/
theorem switch_not_consecutive :
    hasThreeConsecFails (altFailSeq.map (fun t => t.2.1)) = false ∧
    (runReads (initState 0 true) altFailSeq).ser_open = false := by
  constructor
  · rfl
  · rfl

/-- A read with the port already closed changes nothing at all. -/
theorem read_sensor_closed_fix (s : MonitorState) (now : ℚ) (hw : HwResult)
    (r : SimRand) (h : s.ser_open = false) : (read_sensor s now hw r).2 = s := by
  rw [read_sensor_state]
  simp [h]

/-- With the port closed, an entire run of reads changes nothing: the
fallback is one-way and every read takes the simulated path. -/
theorem runReads_closed_fix (seq : List (ℚ × HwResult × SimRand)) :
    ∀ s : MonitorState, s.ser_open = false → runReads s seq = s := by
  induction seq with
  | nil => intro s _; rfl
  | cons t ts ih =>
      intro s h
      unfold runReads
      rw [read_sensor_closed_fix s t.1 t.2.1 t.2.2 h]
      exact ih s h

/-- C3 amended: the sensor source switches to the simulated variant
exactly when the cumulative count of hardware read failures reaches 3
(the counter never resets on a success: a successful read leaves the
state unchanged), and once switched every subsequent read uses the
simulated path and leaves the state unchanged for the rest of the run. -/
theorem switch_cumulative_one_way :
    (∀ (s : MonitorState) (now v : ℚ) (r : SimRand),
      (read_sensor s now (HwResult.success v) r).2 = s) ∧
    (∀ (s : MonitorState) (now : ℚ) (r : SimRand), s.ser_open = true →
      (read_sensor s now HwResult.failure r).2.sensor_errors = s.sensor_errors + 1 ∧
      ((read_sensor s now HwResult.failure r).2.ser_open = false ↔
        3 ≤ s.sensor_errors + 1)) ∧
    (∀ (s : MonitorState) (seq : List (ℚ × HwResult × SimRand)),
      s.ser_open = false →
      runReads s seq = s ∧
      (∀ (now : ℚ) (hw : HwResult) (r : SimRand),
        (read_sensor s now hw r).1 = simulate_sensor_data s now r)) := by
  refine ⟨?_, ?_, ?_⟩
  · intro s now v r
    rw [read_sensor_state]
    simp
  · intro s now r h
    rw [read_sensor_state]
    refine ⟨by simp [h], ?_⟩
    by_cases h3 : 3 ≤ s.sensor_errors + 1
    · simp [h, h3]
    · simp [h, h3]
  · intro s seq h
    refine ⟨runReads_closed_fix seq s h, ?_⟩
    intro now hw r
    unfold read_sensor
    rw [if_pos h]

/-- C3 amended witness: concrete instances of all three conjuncts. -/
theorem switch_cumulative_one_way_witness :
    (read_sensor (initState 0 true) 1 (HwResult.success 7) rNoEvent).2 = initState 0 true ∧
    (read_sensor (initState 0 true) 1 HwResult.failure rNoEvent).2.sensor_errors =
      (initState 0 true).sensor_errors + 1 ∧
    runReads (initState 0 false) altFailSeq = initState 0 false :=
  ⟨switch_cumulative_one_way.1 (initState 0 true) 1 7 rNoEvent,
   (switch_cumulative_one_way.2.1 (initState 0 true) 1 rNoEvent rfl).1,
   (switch_cumulative_one_way.2.2 (initState 0 false) altFailSeq rfl).1⟩

@[simp] theorem read_state_time_data (s : MonitorState) (now : ℚ) (hw : HwResult) (r : SimRand) :
    (read_sensor s now hw r).2.time_data = s.time_data := by
  rw [read_sensor_state]; split <;> rfl

@[simp] theorem read_state_ph_data (s : MonitorState) (now : ℚ) (hw : HwResult) (r : SimRand) :
    (read_sensor s now hw r).2.ph_data = s.ph_data := by
  rw [read_sensor_state]; split <;> rfl

@[simp] theorem read_state_start_time (s : MonitorState) (now : ℚ) (hw : HwResult) (r : SimRand) :
    (read_sensor s now hw r).2.start_time = s.start_time := by
  rw [read_sensor_state]; split <;> rfl

@[simp] theorem read_state_lrt (s : MonitorState) (now : ℚ) (hw : HwResult) (r : SimRand) :
    (read_sensor s now hw r).2.last_reading_time = s.last_reading_time := by
  rw [read_sensor_state]; split <;> rfl

@[simp] theorem read_state_last_reading (s : MonitorState) (now : ℚ) (hw : HwResult) (r : SimRand) :
    (read_sensor s now hw r).2.last_reading = s.last_reading := by
  rw [read_sensor_state]; split <;> rfl

@[simp] theorem read_state_last_category (s : MonitorState) (now : ℚ) (hw : HwResult) (r : SimRand) :
    (read_sensor s now hw r).2.last_category = s.last_category := by
  rw [read_sensor_state]; split <;> rfl

@[simp] theorem read_state_consec (s : MonitorState) (now : ℚ) (hw : HwResult) (r : SimRand) :
    (read_sensor s now hw r).2.consecutive_count = s.consecutive_count := by
  rw [read_sensor_state]; split <;> rfl

@[simp] theorem read_state_health (s : MonitorState) (now : ℚ) (hw : HwResult) (r : SimRand) :
    (read_sensor s now hw r).2.health_score = s.health_score := by
  rw [read_sensor_state]; split <;> rfl

@[simp] theorem read_state_stars (s : MonitorState) (now : ℚ) (hw : HwResult) (r : SimRand) :
    (read_sensor s now hw r).2.stars = s.stars := by
  rw [read_sensor_state]; split <;> rfl

@[simp] theorem read_state_status (s : MonitorState) (now : ℚ) (hw : HwResult) (r : SimRand) :
    (read_sensor s now hw r).2.status_disp = s.status_disp := by
  rw [read_sensor_state]; split <;> rfl

@[simp] theorem read_state_advice (s : MonitorState) (now : ℚ) (hw : HwResult) (r : SimRand) :
    (read_sensor s now hw r).2.advice_disp = s.advice_disp := by
  rw [read_sensor_state]; split <;> rfl

@[simp] theorem read_state_annotations (s : MonitorState) (now : ℚ) (hw : HwResult) (r : SimRand) :
    (read_sensor s now hw r).2.annotations = s.annotations := by
  rw [read_sensor_state]; split <;> rfl

@[simp] theorem consecUpdate_time_data (s : MonitorState) (c : Option Category) :
    (consecUpdate s c).time_data = s.time_data := by
  unfold consecUpdate; split <;> rfl

@[simp] theorem consecUpdate_ph_data (s : MonitorState) (c : Option Category) :
    (consecUpdate s c).ph_data = s.ph_data := by
  unfold consecUpdate; split <;> rfl

@[simp] theorem consecUpdate_start_time (s : MonitorState) (c : Option Category) :
    (consecUpdate s c).start_time = s.start_time := by
  unfold consecUpdate; split <;> rfl

@[simp] theorem consecUpdate_lrt (s : MonitorState) (c : Option Category) :
    (consecUpdate s c).last_reading_time = s.last_reading_time := by
  unfold consecUpdate; split <;> rfl

@[simp] theorem consecUpdate_last_reading (s : MonitorState) (c : Option Category) :
    (consecUpdate s c).last_reading = s.last_reading := by
  unfold consecUpdate; split <;> rfl

@[simp] theorem consecUpdate_health (s : MonitorState) (c : Option Category) :
    (consecUpdate s c).health_score = s.health_score := by
  unfold consecUpdate; split <;> rfl

@[simp] theorem consecUpdate_stars (s : MonitorState) (c : Option Category) :
    (consecUpdate s c).stars = s.stars := by
  unfold consecUpdate; split <;> rfl

@[simp] theorem consecUpdate_sensor_errors (s : MonitorState) (c : Option Category) :
    (consecUpdate s c).sensor_errors = s.sensor_errors := by
  unfold consecUpdate; split <;> rfl

@[simp] theorem consecUpdate_ser_open (s : MonitorState) (c : Option Category) :
    (consecUpdate s c).ser_open = s.ser_open := by
  unfold consecUpdate; split <;> rfl

@[simp] theorem consecUpdate_status (s : MonitorState) (c : Option Category) :
    (consecUpdate s c).status_disp = s.status_disp := by
  unfold consecUpdate; split <;> rfl

@[simp] theorem consecUpdate_advice (s : MonitorState) (c : Option Category) :
    (consecUpdate s c).advice_disp = s.advice_disp := by
  unfold consecUpdate; split <;> rfl

@[simp] theorem consecUpdate_annotations (s : MonitorState) (c : Option Category) :
    (consecUpdate s c).annotations = s.annotations := by
  unfold consecUpdate; split <;> rfl

/-- Effect of one tick on the health score (lines 250–254): +1 capped at
100 when the category name contains "Rainbow", else −1 floored at 0. -/
theorem update_health_score (s : MonitorState) (now : ℚ) (r : TickRand) :
    (update_display s now r).health_score =
      if containsRainbow (tickCategory s now r) then min 100 (s.health_score + 1)
      else max 0 (s.health_score - 1) := by
  rcases hc : classify_ph (read_sensor s now r.hw r.sim).1 with _ | cat <;>
    rcases hl : s.last_reading with _ | lr <;>
      simp [update_display, tickCategory, hc, hl, containsRainbow,
        apply_ite MonitorState.health_score, apply_ite MonitorState.last_reading,
        apply_ite MonitorState.last_reading_time]

/-- Effect of one tick on the star counter (lines 256–259). -/
theorem update_stars (s : MonitorState) (now : ℚ) (r : TickRand) :
    (update_display s now r).stars =
      if starCond s now r then s.stars + 1 else s.stars := by
  rcases hc : classify_ph (read_sensor s now r.hw r.sim).1 with _ | cat <;>
    rcases hl : s.last_reading with _ | lr <;>
      simp [update_display, tickCategory, starCond, hc, hl, containsRainbow,
        apply_ite MonitorState.stars, apply_ite MonitorState.last_reading,
        apply_ite MonitorState.last_reading_time]

/-- Effect of one tick on `last_reading_time`: rewritten to `now` exactly
on a star award, untouched otherwise (in particular not on annotation
emission nor on simulated-event injection). -/
theorem update_lrt (s : MonitorState) (now : ℚ) (r : TickRand) :
    (update_display s now r).last_reading_time =
      if starCond s now r then now else s.last_reading_time := by
  rcases hc : classify_ph (read_sensor s now r.hw r.sim).1 with _ | cat <;>
    rcases hl : s.last_reading with _ | lr <;>
      simp [update_display, tickCategory, starCond, hc, hl, containsRainbow,
        apply_ite MonitorState.last_reading_time, apply_ite MonitorState.last_reading]

/-- The "Rainbow" substring test holds exactly for PerfectRainbow. -/
theorem containsRainbow_iff (c : Option Category) :
    containsRainbow c = true ↔ c = some Category.PerfectRainbow := by
  rcases c with _ | cat
  · simp [containsRainbow]
  · cases cat <;> simp [containsRainbow]

/-- One tick keeps the health score inside [0, 100]. -/
theorem health_step_bounds (s : MonitorState) (now : ℚ) (r : TickRand)
    (h0 : 0 ≤ s.health_score) (h1 : s.health_score ≤ 100) :
    0 ≤ (update_display s now r).health_score ∧
      (update_display s now r).health_score ≤ 100 := by
  rw [update_health_score]
  split
  · exact ⟨le_min (by norm_num) (by omega), min_le_left _ _⟩
  · exact ⟨le_max_left _ _, max_le (by norm_num) (by omega)⟩

/-- Any run of ticks keeps an in-range health score in range. -/
theorem runTicks_health_bounds (ticks : List (ℚ × TickRand)) :
    ∀ s : MonitorState, 0 ≤ s.health_score → s.health_score ≤ 100 →
      0 ≤ (runTicks s ticks).health_score ∧ (runTicks s ticks).health_score ≤ 100 := by
  induction ticks with
  | nil => exact fun s h0 h1 => ⟨h0, h1⟩
  | cons t ts ih =>
      intro s h0 h1
      have h := health_step_bounds s t.1 t.2 h0 h1
      exact ih _ h.1 h.2

/-- C5: each tick moves the health score by +1 capped at 100 on a
PerfectRainbow classification and by −1 floored at 0 on any other tick
(Unknown included), and from the initial score 100 it stays inside
[0, 100] after every finite tick sequence. -/
theorem health_score_law_and_invariant :
    (∀ (s : MonitorState) (now : ℚ) (r : TickRand),
      (update_display s now r).health_score =
        if tickCategory s now r = some Category.PerfectRainbow
        then min 100 (s.health_score + 1) else max 0 (s.health_score - 1)) ∧
    (∀ (t0 : ℚ) (op : Bool) (ticks : List (ℚ × TickRand)),
      0 ≤ (runTicks (initState t0 op) ticks).health_score ∧
      (runTicks (initState t0 op) ticks).health_score ≤ 100) := by
  constructor
  · intro s now r
    rw [update_health_score]
    simp only [containsRainbow_iff]
  · intro t0 op ticks
    exact runTicks_health_bounds ticks (initState t0 op) (by norm_num [initState])
      (by norm_num [initState])

/-- An Unknown-classified tick keeps everything after the raise point
untouched while the mutations made before the raise persist. -/
theorem unknown_branch (s : MonitorState) (now : ℚ) (r : TickRand)
    (hc : tickCategory s now r = none) :
    (update_display s now r).status_disp = s.status_disp ∧
    (update_display s now r).advice_disp = s.advice_disp ∧
    (update_display s now r).annotations = s.annotations ∧
    (update_display s now r).last_reading = s.last_reading ∧
    (update_display s now r).stars = s.stars ∧
    (update_display s now r).last_reading_time = s.last_reading_time ∧
    (update_display s now r).health_score = max 0 (s.health_score - 1) ∧
    (update_display s now r).time_data = pushCap 50 s.time_data (now - s.start_time) ∧
    (update_display s now r).ph_data = pushCap 50 s.ph_data (tickPh s now r) ∧
    (update_display s now r).last_category = some none ∧
    (update_display s now r).consecutive_count =
      (if s.last_category = some none then s.consecutive_count + 1 else 1) := by
  unfold tickCategory at hc
  refine ⟨?_, ?_, ?_, ?_, ?_, ?_, ?_, ?_, ?_, ?_, ?_⟩ <;>
    simp [update_display, tickPh, hc, consecUpdate] <;>
    split <;> simp_all

/-- A hardware reading of 20 on an open port classifies as Unknown. -/
theorem tick20_unknown :
    tickCategory (initState 0 true) 2 ⟨HwResult.success 20, rNoEvent, 0⟩ = none := by
  have hv : read_sensor (initState 0 true) 2 (HwResult.success 20) rNoEvent =
      (20, initState 0 true) :=
    (read_sensor_cases (initState 0 true) 2 (HwResult.success 20) rNoEvent).2.1 20 rfl rfl
  unfold tickCategory
  simp only [hv]
  exact (classify_bands_cases 20).2.2.2.2.2 (Or.inr (by norm_num))

/-- C2 counterexample: a hardware reading of pH 20 classifies as Unknown,
the raised error is caught, but the tick is not state-neutral: the health
score drops from 100 to 99 and the history gains an entry. -/
theorem unknown_tick_mutates :
    tickCategory (initState 0 true) 2 ⟨HwResult.success 20, rNoEvent, 0⟩ = none ∧
    (update_display (initState 0 true) 2 ⟨HwResult.success 20, rNoEvent, 0⟩).health_score = 99 ∧
    (update_display (initState 0 true) 2 ⟨HwResult.success 20, rNoEvent, 0⟩).time_data = [2] := by
  have h := unknown_branch (initState 0 true) 2 ⟨HwResult.success 20, rNoEvent, 0⟩ tick20_unknown
  refine ⟨tick20_unknown, ?_, ?_⟩
  · rw [h.2.2.2.2.2.2.1]
    norm_num [initState]
  · rw [h.2.2.2.2.2.2.2.1]
    norm_num [initState, pushCap]

/-- C2 amended: when the tick computation raises (reading classified
Unknown, so the status format hits `data = None`), the error is caught
and the loop survives, and everything after the raise point stays
untouched (display payload, advice, annotations, last-reading marker,
stars, star timestamp) — but the mutations made before the raise persist:
the rolling history is appended, the health score is decremented (floored
at 0) and the consecutive-category bookkeeping runs with the name
"Unknown". -/
theorem unknown_tick_caught (s : MonitorState) (now : ℚ) (r : TickRand)
    (hc : tickCategory s now r = none) :
    (update_display s now r).status_disp = s.status_disp ∧
    (update_display s now r).advice_disp = s.advice_disp ∧
    (update_display s now r).annotations = s.annotations ∧
    (update_display s now r).last_reading = s.last_reading ∧
    (update_display s now r).stars = s.stars ∧
    (update_display s now r).last_reading_time = s.last_reading_time ∧
    (update_display s now r).health_score = max 0 (s.health_score - 1) ∧
    (update_display s now r).time_data = pushCap 50 s.time_data (now - s.start_time) ∧
    (update_display s now r).ph_data = pushCap 50 s.ph_data (tickPh s now r) ∧
    (update_display s now r).last_category = some none ∧
    (update_display s now r).consecutive_count =
      (if s.last_category = some none then s.consecutive_count + 1 else 1) :=
  unknown_branch s now r hc

/-- C2 amended witness: the Unknown tick at pH 20 exercised concretely. -/
theorem unknown_tick_caught_witness :
    (update_display (initState 0 true) 2 ⟨HwResult.success 20, rNoEvent, 0⟩).status_disp =
      (initState 0 true).status_disp ∧
    (update_display (initState 0 true) 2 ⟨HwResult.success 20, rNoEvent, 0⟩).stars =
      (initState 0 true).stars :=
  ⟨(unknown_tick_caught (initState 0 true) 2 ⟨HwResult.success 20, rNoEvent, 0⟩
      tick20_unknown).1,
   (unknown_tick_caught (initState 0 true) 2 ⟨HwResult.success 20, rNoEvent, 0⟩
      tick20_unknown).2.2.2.2.1⟩

/-- A tick never changes the recorded monitor start time. -/
theorem update_start_time (s : MonitorState) (now : ℚ) (r : TickRand) :
    (update_display s now r).start_time = s.start_time := by
  rcases hc : classify_ph (read_sensor s now r.hw r.sim).1 with _ | cat <;>
    rcases hl : s.last_reading with _ | lr <;>
      simp [update_display, hc, hl,
        apply_ite MonitorState.start_time, apply_ite MonitorState.last_reading,
        apply_ite MonitorState.last_reading_time]

/-- The tick's effect on the port flag is exactly `read_sensor`'s. -/
theorem update_ser_open (s : MonitorState) (now : ℚ) (r : TickRand) :
    (update_display s now r).ser_open = (read_sensor s now r.hw r.sim).2.ser_open := by
  rcases hc : classify_ph (read_sensor s now r.hw r.sim).1 with _ | cat <;>
    rcases hl : s.last_reading with _ | lr <;>
      simp [update_display, hc, hl,
        apply_ite MonitorState.ser_open, apply_ite MonitorState.last_reading,
        apply_ite MonitorState.last_reading_time]

/-- Effect of one tick on the annotation collection (lines 291–300): one
entry appended exactly under `annotCond`. -/
theorem update_annotations (s : MonitorState) (now : ℚ) (r : TickRand) :
    (update_display s now r).annotations =
      if annotCond s now r = true then
        s.annotations ++ [(now - s.start_time, tickPh s now r,
          decide (s.last_reading.getD 0 < tickPh s now r),
          |tickPh s now r - s.last_reading.getD 0|)]
      else s.annotations := by
  rcases hc : classify_ph (read_sensor s now r.hw r.sim).1 with _ | cat <;>
    rcases hl : s.last_reading with _ | lr <;>
      simp [update_display, annotCond, tickCategory, tickPh, starCond, hc, hl,
        containsRainbow, apply_ite MonitorState.annotations,
        apply_ite MonitorState.last_reading, apply_ite MonitorState.last_reading_time] <;>
      split_ifs <;> simp_all

/-- Effect of one tick on the last-reading marker (lines 295–303). -/
theorem update_last_reading (s : MonitorState) (now : ℚ) (r : TickRand) :
    (update_display s now r).last_reading =
      if annotCond s now r = true then some (tickPh s now r)
      else if (tickCategory s now r).isSome = true ∧ s.last_reading = none
      then some (tickPh s now r)
      else s.last_reading := by
  rcases hc : classify_ph (read_sensor s now r.hw r.sim).1 with _ | cat <;>
    rcases hl : s.last_reading with _ | lr <;>
      simp [update_display, annotCond, tickCategory, tickPh, starCond, hc, hl,
        containsRainbow, apply_ite MonitorState.annotations,
        apply_ite MonitorState.last_reading, apply_ite MonitorState.last_reading_time] <;>
      split_ifs <;> simp_all

/-- A hardware reading of 7 on an open port classifies as
PerfectRainbow, at any tick time. -/
theorem tick7_rainbow (now : ℚ) :
    tickCategory (initState 0 true) now ⟨HwResult.success 7, rNoEvent, 0⟩ =
      some Category.PerfectRainbow := by
  have hv : read_sensor (initState 0 true) now (HwResult.success 7) rNoEvent =
      (7, initState 0 true) :=
    (read_sensor_cases (initState 0 true) now (HwResult.success 7) rNoEvent).2.1 7 rfl rfl
  unfold tickCategory
  simp only [hv]
  exact (classify_bands_cases 7).2.2.2.1 (by norm_num)

/-- At exactly 5 seconds the strict star cooldown blocks the award. -/
theorem starCond5_false :
    starCond (initState 0 true) 5 ⟨HwResult.success 7, rNoEvent, 0⟩ = false := by
  unfold starCond
  rw [tick7_rainbow 5]
  simp [containsRainbow, initState]

/-- At 6 seconds the star condition fires. -/
theorem starCond6_true :
    starCond (initState 0 true) 6 ⟨HwResult.success 7, rNoEvent, 0⟩ = true := by
  unfold starCond
  rw [tick7_rainbow 6]
  simp [containsRainbow, initState]
  norm_num

/-- C6 counterexample: a PerfectRainbow reading exactly 5 seconds after
the last-star reference earns no star: the code's cooldown test is
strictly greater-than, so "at least 5 seconds elapsed" fails at the
boundary. -/
theorem star_boundary_no_award :
    tickCategory (initState 0 true) 5 ⟨HwResult.success 7, rNoEvent, 0⟩ =
      some Category.PerfectRainbow ∧
    (5 : ℚ) - (initState 0 true).last_reading_time = 5 ∧
    (update_display (initState 0 true) 5 ⟨HwResult.success 7, rNoEvent, 0⟩).stars = 0 := by
  refine ⟨tick7_rainbow 5, by norm_num [initState], ?_⟩
  rw [update_stars, starCond5_false]
  simp [initState]

/-- Without a star award in between, `last_reading_time` is constant
along a run. -/
theorem lrt_const_no_award (s0 : MonitorState) (f : ℕ → ℚ × TickRand) (m : ℕ) :
    ∀ k, (∀ i, m ≤ i → i < m + k →
        starCond (runFrom s0 f i) (f i).1 (f i).2 = false) →
      (runFrom s0 f (m + k)).last_reading_time =
        (runFrom s0 f m).last_reading_time := by
  intro k
  induction k with
  | zero => intro _; rfl
  | succ k ih =>
      intro h
      have hk : starCond (runFrom s0 f (m + k)) (f (m + k)).1 (f (m + k)).2 = false :=
        h (m + k) (Nat.le_add_right m k) (by omega)
      show (update_display (runFrom s0 f (m + k)) (f (m + k)).1
        (f (m + k)).2).last_reading_time = _
      rw [update_lrt, hk]
      simp only [Bool.false_eq_true, if_false]
      exact ih (fun i hi1 hi2 => h i hi1 (by omega))

/-- C6 amended: the star count is non-decreasing over every run; a tick
awards exactly 1 star iff its category name contains "Rainbow" and
strictly more than 5 seconds (not "at least 5") elapsed since the shared
`last_reading_time` reference, updating that timestamp; and two awards
with no award in between are always strictly more than 5 seconds apart. -/
theorem star_award_law :
    (∀ (s0 : MonitorState) (f : ℕ → ℚ × TickRand) (m n : ℕ), m ≤ n →
      (runFrom s0 f m).stars ≤ (runFrom s0 f n).stars) ∧
    (∀ (s : MonitorState) (now : ℚ) (r : TickRand), starCond s now r = true →
      (update_display s now r).stars = s.stars + 1 ∧
      (update_display s now r).last_reading_time = now) ∧
    (∀ (s : MonitorState) (now : ℚ) (r : TickRand), starCond s now r = false →
      (update_display s now r).stars = s.stars) ∧
    (∀ (s0 : MonitorState) (f : ℕ → ℚ × TickRand) (m n : ℕ), m < n →
      starCond (runFrom s0 f m) (f m).1 (f m).2 = true →
      starCond (runFrom s0 f n) (f n).1 (f n).2 = true →
      (∀ k, m < k → k < n → starCond (runFrom s0 f k) (f k).1 (f k).2 = false) →
      (f n).1 - (f m).1 > 5) := by
  have hstep : ∀ (s0 : MonitorState) (f : ℕ → ℚ × TickRand) (n : ℕ),
      (runFrom s0 f n).stars ≤ (runFrom s0 f (n + 1)).stars := by
    intro s0 f n
    show _ ≤ (update_display (runFrom s0 f n) (f n).1 (f n).2).stars
    rw [update_stars]
    split <;> omega
  have hmono : ∀ (s0 : MonitorState) (f : ℕ → ℚ × TickRand) (n m : ℕ), m ≤ n →
      (runFrom s0 f m).stars ≤ (runFrom s0 f n).stars := by
    intro s0 f n
    induction n with
    | zero =>
        intro m hm
        have : m = 0 := Nat.le_zero.mp hm
        subst this
        exact le_refl _
    | succ n ih =>
        intro m hm
        rcases Nat.eq_or_lt_of_le hm with he | hlt
        · subst he
          exact le_refl _
        · exact le_trans (ih m (by omega)) (hstep s0 f n)
  refine ⟨fun s0 f m n hmn => hmono s0 f n m hmn, ?_, ?_, ?_⟩
  · intro s now r h
    refine ⟨?_, ?_⟩
    · rw [update_stars, h]
      simp
    · rw [update_lrt, h]
      simp
  · intro s now r h
    rw [update_stars, h]
    simp
  · intro s0 f m n hmn hm hn hmid
    have h1 : (runFrom s0 f (m + 1)).last_reading_time = (f m).1 := by
      show (update_display (runFrom s0 f m) (f m).1 (f m).2).last_reading_time = _
      rw [update_lrt, hm]
      simp
    have h2 : (runFrom s0 f n).last_reading_time = (f m).1 := by
      have hc := lrt_const_no_award s0 f (m + 1) (n - (m + 1))
        (fun i hi1 hi2 => hmid i (by omega) (by omega))
      rw [Nat.add_sub_cancel' (by omega : m + 1 ≤ n)] at hc
      rw [hc, h1]
    unfold starCond at hn
    rw [Bool.and_eq_true] at hn
    have hb := of_decide_eq_true hn.2
    rw [h2] at hb
    exact hb

/-- C6 amended witness: a star awarded at 6 seconds from the initial
state, through the award conjunct of the law. -/
theorem star_award_law_witness :
    starCond (initState 0 true) 6 ⟨HwResult.success 7, rNoEvent, 0⟩ = true ∧
    (update_display (initState 0 true) 6 ⟨HwResult.success 7, rNoEvent, 0⟩).stars =
      (initState 0 true).stars + 1 :=
  ⟨starCond6_true,
   (star_award_law.2.1 (initState 0 true) 6 ⟨HwResult.success 7, rNoEvent, 0⟩
      starCond6_true).1⟩

/-- Shared facts about a successful hardware tick whose reading
classifies into a non-"Rainbow" band. -/
theorem hw_tick_facts (s : MonitorState) (now v : ℚ) (ai : ℕ) (cat : Category)
    (hs : s.ser_open = true) (hc : classify_ph v = some cat)
    (hnr : containsRainbow (some cat) = false) :
    tickPh s now ⟨HwResult.success v, rNoEvent, ai⟩ = v ∧
    tickCategory s now ⟨HwResult.success v, rNoEvent, ai⟩ = some cat ∧
    starCond s now ⟨HwResult.success v, rNoEvent, ai⟩ = false ∧
    (update_display s now ⟨HwResult.success v, rNoEvent, ai⟩).start_time = s.start_time ∧
    (update_display s now ⟨HwResult.success v, rNoEvent, ai⟩).last_reading_time =
      s.last_reading_time ∧
    (update_display s now ⟨HwResult.success v, rNoEvent, ai⟩).ser_open = true := by
  have hv : read_sensor s now (HwResult.success v) rNoEvent = (v, s) :=
    (read_sensor_cases s now (HwResult.success v) rNoEvent).2.1 v hs rfl
  have hph : tickPh s now ⟨HwResult.success v, rNoEvent, ai⟩ = v := by
    unfold tickPh
    simp only [hv]
  have hcat : tickCategory s now ⟨HwResult.success v, rNoEvent, ai⟩ = some cat := by
    unfold tickCategory
    simp only [hv]
    exact hc
  have hsc : starCond s now ⟨HwResult.success v, rNoEvent, ai⟩ = false := by
    unfold starCond
    rw [hcat, hnr]
    simp
  refine ⟨hph, hcat, hsc, update_start_time _ _ _, ?_, ?_⟩
  · rw [update_lrt, hsc]
    simp
  · rw [update_ser_open]
    simp only [hv]
    exact hs

/-- With no prior reading the annotation condition is off. -/
theorem annotCond_no_prior (s : MonitorState) (now : ℚ) (r : TickRand)
    (hl : s.last_reading = none) : annotCond s now r = false := by
  unfold annotCond
  rw [hl]
  simp

/-- Concrete value of the annotation condition on a successful
non-"Rainbow" hardware tick with a prior reading. -/
theorem annotCond_eval (s : MonitorState) (now v : ℚ) (ai : ℕ) (cat : Category) (lr : ℚ)
    (hs : s.ser_open = true) (hc : classify_ph v = some cat)
    (hnr : containsRainbow (some cat) = false)
    (hl : s.last_reading = some lr) :
    annotCond s now ⟨HwResult.success v, rNoEvent, ai⟩ =
      (decide (|v - lr| > 1/2) &&
        decide ((now - s.start_time) - s.last_reading_time > 5)) := by
  obtain ⟨hph, hcat, hsc, -, -, -⟩ := hw_tick_facts s now v ai cat hs hc hnr
  unfold annotCond
  rw [hcat, hl, hph, hsc]
  simp

/-- Field facts about the state after the first `annotSeq` tick. -/
theorem annotS1_facts :
    annotS1.ser_open = true ∧
    annotS1.last_reading = some (49/10) ∧
    annotS1.last_reading_time = 0 ∧
    annotS1.start_time = 0 ∧
    annotS1.annotations = [] := by
  have hc : classify_ph (49/10) = some Category.DragonFire :=
    (classify_bands_cases (49/10)).1 (by norm_num)
  obtain ⟨hph, hcat, hsc, hst, hlrt, hser⟩ :=
    hw_tick_facts (initState 0 true) 5 (49/10) 0 Category.DragonFire rfl hc rfl
  have hac : annotCond (initState 0 true) 5 ⟨HwResult.success (49/10), rNoEvent, 0⟩ = false :=
    annotCond_no_prior _ _ _ rfl
  refine ⟨hser, ?_, ?_, ?_, ?_⟩
  · show (update_display (initState 0 true) 5 ⟨HwResult.success (49/10), rNoEvent, 0⟩).last_reading = _
    rw [update_last_reading, hac, hcat, hph]
    simp [initState]
  · show (update_display (initState 0 true) 5 ⟨HwResult.success (49/10), rNoEvent, 0⟩).last_reading_time = _
    rw [hlrt]
    rfl
  · show (update_display (initState 0 true) 5 ⟨HwResult.success (49/10), rNoEvent, 0⟩).start_time = _
    rw [hst]
    rfl
  · show (update_display (initState 0 true) 5 ⟨HwResult.success (49/10), rNoEvent, 0⟩).annotations = _
    rw [update_annotations, hac]
    simp [initState]

/-- Field facts about the state after the second `annotSeq` tick: the
0.6 delta at 10 s emits the first annotation. -/
theorem annotS2_facts :
    annotS2.ser_open = true ∧
    annotS2.last_reading = some (55/10) ∧
    annotS2.last_reading_time = 0 ∧
    annotS2.start_time = 0 ∧
    annotS2.annotations = [(10, 55/10, true, 3/5)] := by
  obtain ⟨h1ser, h1lr, h1lrt, h1st, h1ann⟩ := annotS1_facts
  have hc : classify_ph (55/10) = some Category.SourLemon :=
    (classify_bands_cases (55/10)).2.1 (by norm_num)
  obtain ⟨hph, hcat, hsc, hst, hlrt, hser⟩ :=
    hw_tick_facts annotS1 10 (55/10) 0 Category.SourLemon h1ser hc rfl
  have hac : annotCond annotS1 10 ⟨HwResult.success (55/10), rNoEvent, 0⟩ = true := by
    rw [annotCond_eval annotS1 10 (55/10) 0 Category.SourLemon (49/10) h1ser hc rfl h1lr,
      h1st, h1lrt]
    norm_num [abs_of_nonneg]
  refine ⟨hser, ?_, ?_, ?_, ?_⟩
  · show (update_display annotS1 10 ⟨HwResult.success (55/10), rNoEvent, 0⟩).last_reading = _
    rw [update_last_reading, hac, hph]
    simp
  · show (update_display annotS1 10 ⟨HwResult.success (55/10), rNoEvent, 0⟩).last_reading_time = _
    rw [hlrt, h1lrt]
  · show (update_display annotS1 10 ⟨HwResult.success (55/10), rNoEvent, 0⟩).start_time = _
    rw [hst, h1st]
  · show (update_display annotS1 10 ⟨HwResult.success (55/10), rNoEvent, 0⟩).annotations = _
    rw [update_annotations, hac, hph, h1lr, h1st, h1ann]
    norm_num [abs_of_nonneg]

/-- C4 counterexample: in the spec's own scenario (readings 5 s apart with
delta 0.6, then a third 2 s later with delta 0.6 again) the run emits TWO
annotations, not one: the cooldown reference is never written on
emission, so the third reading also annotates. -/
theorem third_reading_also_annotates :
    (runTicks (initState 0 true) annotSeq).annotations =
      [(10, 55/10, true, 3/5), (12, 61/10, true, 3/5)] := by
  obtain ⟨h2ser, h2lr, h2lrt, h2st, h2ann⟩ := annotS2_facts
  have hc : classify_ph (61/10) = some Category.TangyOrange :=
    (classify_bands_cases (61/10)).2.2.1 (by norm_num)
  obtain ⟨hph, hcat, hsc, hst, hlrt, hser⟩ :=
    hw_tick_facts annotS2 12 (61/10) 0 Category.TangyOrange h2ser hc rfl
  have hac : annotCond annotS2 12 ⟨HwResult.success (61/10), rNoEvent, 0⟩ = true := by
    rw [annotCond_eval annotS2 12 (61/10) 0 Category.TangyOrange (55/10) h2ser hc rfl h2lr,
      h2st, h2lrt]
    norm_num [abs_of_nonneg]
  show (update_display annotS2 12 ⟨HwResult.success (61/10), rNoEvent, 0⟩).annotations = _
  rw [update_annotations, hac, hph, h2lr, h2st, h2ann]
  norm_num [abs_of_nonneg]

/-- C4 amended: a tick with a prior reading, a delta above 0.5 and
`(now − start_time) − last_reading_time > 5` emits exactly one change
annotation (direction and magnitude) and updates the last-reading marker,
but writes no annotation timestamp: `last_reading_time` — the only
cooldown reference — is untouched (shown here for non-Rainbow ticks,
where no star award interferes), so an equal delta 2 seconds later is
annotated again. -/
theorem annotation_no_cooldown_timestamp (s : MonitorState) (now : ℚ) (r : TickRand)
    (lr : ℚ) (cat : Category)
    (hl : s.last_reading = some lr)
    (hc : tickCategory s now r = some cat)
    (hnr : cat ≠ Category.PerfectRainbow)
    (hd : |tickPh s now r - lr| > 1/2)
    (ht : (now - s.start_time) - s.last_reading_time > 5) :
    (update_display s now r).annotations =
      s.annotations ++ [(now - s.start_time, tickPh s now r,
        decide (lr < tickPh s now r), |tickPh s now r - lr|)] ∧
    (update_display s now r).last_reading = some (tickPh s now r) ∧
    (update_display s now r).last_reading_time = s.last_reading_time := by
  have hcr : containsRainbow (some cat) = false := by
    cases cat
    case PerfectRainbow => exact absurd rfl hnr
    all_goals rfl
  have hstar : starCond s now r = false := by
    unfold starCond
    rw [hc, hcr]
    simp
  have hac : annotCond s now r = true := by
    unfold annotCond
    rw [hc, hl, hstar]
    simp only [Option.isSome_some, Bool.true_and, Bool.false_eq_true, if_false,
      Bool.and_eq_true, decide_eq_true_eq]
    exact ⟨hd, ht⟩
  refine ⟨?_, ?_, ?_⟩
  · rw [update_annotations, hac]
    simp [hl]
  · rw [update_last_reading, hac]
    simp
  · rw [update_lrt, hstar]
    simp

/-- C4 amended witness: the second `annotSeq` tick exercised through the
law: it annotates, moves the last-reading marker, and leaves the cooldown
reference untouched. -/
theorem annotation_no_cooldown_timestamp_witness :
    (update_display annotS1 10 ⟨HwResult.success (55/10), rNoEvent, 0⟩).last_reading =
      some (tickPh annotS1 10 ⟨HwResult.success (55/10), rNoEvent, 0⟩) ∧
    (update_display annotS1 10 ⟨HwResult.success (55/10), rNoEvent, 0⟩).last_reading_time =
      annotS1.last_reading_time :=
  ⟨(annotation_no_cooldown_timestamp annotS1 10 ⟨HwResult.success (55/10), rNoEvent, 0⟩
      (49/10) Category.SourLemon annotS1_facts.2.1
      (hw_tick_facts annotS1 10 (55/10) 0 Category.SourLemon annotS1_facts.1
        ((classify_bands_cases (55/10)).2.1 (by norm_num)) rfl).2.1
      (by decide)
      (by rw [(hw_tick_facts annotS1 10 (55/10) 0 Category.SourLemon annotS1_facts.1
          ((classify_bands_cases (55/10)).2.1 (by norm_num)) rfl).1]
          norm_num [abs_of_nonneg])
      (by rw [annotS1_facts.2.2.2.1, annotS1_facts.2.2.1]
          norm_num)).2.1,
   (annotation_no_cooldown_timestamp annotS1 10 ⟨HwResult.success (55/10), rNoEvent, 0⟩
      (49/10) Category.SourLemon annotS1_facts.2.1
      (hw_tick_facts annotS1 10 (55/10) 0 Category.SourLemon annotS1_facts.1
        ((classify_bands_cases (55/10)).2.1 (by norm_num)) rfl).2.1
      (by decide)
      (by rw [(hw_tick_facts annotS1 10 (55/10) 0 Category.SourLemon annotS1_facts.1
          ((classify_bands_cases (55/10)).2.1 (by norm_num)) rfl).1]
          norm_num [abs_of_nonneg])
      (by rw [annotS1_facts.2.2.2.1, annotS1_facts.2.2.1]
          norm_num)).2.2⟩

/-- The sugary branch fires at 21 s with `last_reading_time = 0`. -/
theorem sugar21 : sugarEvent (initState 0 false) 21 rSugar = true := by
  unfold sugarEvent
  norm_num [initState, rSugar]

/-- The sugary branch fires again at 22 s, 1 second later. -/
theorem sugar22 : sugarEvent (initState 0 false) 22 rSugar = true := by
  unfold sugarEvent
  norm_num [initState, rSugar]

/-- C8 counterexample: the event eligibility clock is
`last_reading_time`, which injections never reset, so with that field
still 0 the sugary branch injects a downward excursion at 21 s and again
at 22 s — only 1 second after the previous such event, although the claim
requires at least 20 seconds since the last injection. -/
theorem sugary_events_back_to_back :
    sugarEvent (initState 0 false) 21 rSugar = true ∧
    simulate_sensor_data (initState 0 false) 21 rSugar = 5 ∧
    sugarEvent (initState 0 false) 22 rSugar = true ∧
    simulate_sensor_data (initState 0 false) 22 rSugar = 5 := by
  refine ⟨sugar21, ?_, sugar22, ?_⟩
  · unfold simulate_sensor_data
    rw [sugar21]
    norm_num [rSugar, round2, rndHalfEven]
  · unfold simulate_sensor_data
    rw [sugar22]
    norm_num [rSugar, round2, rndHalfEven]

/-- C8 amended: per simulated read, the sugary branch fires iff its coin
is below 0.1 and strictly more than 20 s passed since
`last_reading_time` (a star-award/init timestamp — injections update no
clock of their own); the healthy branch fires iff the sugary branch did
not fire, its coin is below 0.1 and strictly more than 40 s passed since
the same reference; the two branches are mutually exclusive on a tick;
and the fired draw is subtracted resp. added before clamping and
rounding. -/
theorem excursion_clock_and_exclusivity (s : MonitorState) (now : ℚ) (r : SimRand) :
    (sugarEvent s now r = true ↔
      now - s.last_reading_time > 20 ∧ r.coin1 < 1/10) ∧
    (healthyEvent s now r = true ↔
      sugarEvent s now r = false ∧ now - s.last_reading_time > 40 ∧ r.coin2 < 1/10) ∧
    (sugarEvent s now r && healthyEvent s now r) = false ∧
    simulate_sensor_data s now r =
      round2 (max 4 (min 9 (65/10 + (1/2) * r.sinVal + r.gauss +
        (if sugarEvent s now r then -r.u1
         else if healthyEvent s now r then r.u2 else 0)))) := by
  refine ⟨?_, ?_, ?_, ?_⟩
  · unfold sugarEvent
    simp
  · unfold healthyEvent
    simp [Bool.not_eq_true', and_assoc]
  · unfold healthyEvent
    cases h : sugarEvent s now r <;> simp
  · unfold simulate_sensor_data
    split_ifs with h1 h2 <;>
      exact congrArg (fun t => round2 (max 4 (min 9 t))) (by ring)

/-- C10: `last_reading_time` is a single shared clock: a tick writes it
(to the tick time) exactly on a star award and nowhere else, the
simulated-event eligibility tests read it (sugary needs it more than 20 s
old, healthy more than 40 s), the annotation cooldown test reads the same
field as left after this tick's star logic, and initialization stamps it
with the construction time.  Hence a star award resets all three
cooldowns at once, and injecting an excursion starts no new cooldown. -/
theorem shared_clock_last_reading_time :
    (∀ (s : MonitorState) (now : ℚ) (r : TickRand),
      (update_display s now r).last_reading_time =
        if starCond s now r then now else s.last_reading_time) ∧
    (∀ (s : MonitorState) (now : ℚ) (rs : SimRand),
      sugarEvent s now rs = true → now - s.last_reading_time > 20) ∧
    (∀ (s : MonitorState) (now : ℚ) (rs : SimRand),
      healthyEvent s now rs = true → now - s.last_reading_time > 40) ∧
    (∀ (s : MonitorState) (now : ℚ) (r : TickRand),
      annotCond s now r = true →
        (now - s.start_time) - (update_display s now r).last_reading_time > 5) ∧
    (∀ (t0 : ℚ) (op : Bool), (initState t0 op).last_reading_time = t0) := by
  refine ⟨update_lrt, ?_, ?_, ?_, fun t0 op => rfl⟩
  · intro s now rs h
    unfold sugarEvent at h
    rw [Bool.and_eq_true] at h
    exact of_decide_eq_true h.1
  · intro s now rs h
    unfold healthyEvent at h
    rw [Bool.and_eq_true] at h
    obtain ⟨-, h2⟩ := h
    rw [Bool.and_eq_true] at h2
    exact of_decide_eq_true h2.1
  · intro s now r h
    unfold annotCond at h
    rcases hl : s.last_reading with _ | lr <;> rw [hl] at h
    · simp at h
    · rw [Bool.and_eq_true] at h
      obtain ⟨-, h2⟩ := h
      rw [Bool.and_eq_true] at h2
      have hcool := of_decide_eq_true h2.2
      rw [update_lrt]
      exact hcool

/-- C10 witness: the sugary-eligibility conjunct at the concrete 21 s
injection. -/
theorem shared_clock_last_reading_time_witness :
    (21 : ℚ) - (initState 0 false).last_reading_time > 20 :=
  shared_clock_last_reading_time.2.1 (initState 0 false) 21 rSugar sugar21

end ChildHealth
